import Mathlib

/-!
Shallow embedding of the abuse-report routing and moderation-notification
dispatcher (src/synapse/handlers/abuse_reports.py) and proofs about it.

The handler code is translated function by function.  Collaborators that the
handler consumes (datastore, state handler, visibility filter, server-notice
manager, federation sender) live outside the handler module; they are
represented by an environment record Env, and the few collaborator behaviours
the claims depend on are modelled from the specification (each such
definition carries a doc comment saying so).

Python exceptions are modelled by an error type Err; Python side effects
(sending a server notice, sending a federation EDU, persisting an admin
report, logging a warning) are modelled by an action log threaded through a
monad M.  An exception aborts the computation but keeps the actions emitted
so far, exactly as in the source.
-/

namespace AbuseReports

/-- A JSON scalar value, enough for the fields the handler touches. -/
inductive JsonValue where
  | str : String → JsonValue
  | int : Int → JsonValue
  | null : JsonValue
deriving DecidableEq, Repr

/-- A JSON dictionary, as an insertion-ordered association list
(Python dicts preserve insertion order and have unique keys). -/
abbrev JsonDict := List (String × JsonValue)

/-- Python dict access d.get(k): the value at the first occurrence of the
key, if any. -/
def alist_get {β : Type} (d : List (String × β)) (k : String) : Option β :=
  match d with
  | [] => none
  | p :: t => if p.1 = k then some p.2 else alist_get t k

/-- Removal of a key, as Python dict.pop(k) leaves the dict. -/
def dict_remove (d : JsonDict) (k : String) : JsonDict :=
  match d with
  | [] => []
  | p :: t => if p.1 = k then dict_remove t k else p :: dict_remove t k

/-- Error codes from synapse.api.errors.Codes (constants module, outside
src; the spec names BAD_JSON and NOT_FOUND, the servlet helper uses
MISSING_PARAM, id parsing uses INVALID_PARAM). -/
inductive Codes where
  | NOT_FOUND
  | BAD_JSON
  | MISSING_PARAM
  | INVALID_PARAM
  | UNKNOWN
deriving DecidableEq, Repr

/-- A Python exception as raised by the handler or by what it calls:
a SynapseError carries an HTTP status, a message and a Codes value; a
KeyError is raised by dict.pop on a missing key; an AttributeError is
raised by attribute access on an object that lacks the attribute. -/
inductive Err where
  | synapse (status : Nat) (msg : String) (errcode : Codes)
  | keyError (key : String)
  | attributeError (attr : String)
deriving DecidableEq, Repr

/-- msgtype constant ServerNoticeContentReport from synapse.api.constants
(outside src; the exact string is immaterial to every claim, only its
fixedness matters). -/
def ServerNoticeContentReport : String := "m.server_notice.content_report"

/-- Event type constant EventTypes.Message from synapse.api.constants. -/
def EventTypes.Message : String := "m.room.message"

/-- Modelled from the spec: the EDU type used for content reports,
spec section 6 gives eduType = "content_report" (the constants module is
outside src). -/
def EduTypes.ContentReport : String := "content_report"

/-- An observable side effect of the handler. -/
inductive Action where
  | add_event_report (room_id event_id user_id reason : String)
      (content : JsonDict) (received_ts : Nat)
  | send_notice (user_id : String) (type : String) (event_content : JsonDict)
  | send_edu (destination : String) (edu_type : String) (content : JsonDict)
  | log_warning (msg : String)
deriving DecidableEq, Repr

/-- The effect monad: an action log threaded through the computation,
with Python-style exceptions.  An exception keeps the log emitted so far. -/
def M (α : Type) : Type := List Action → List Action × Except Err α

def M.pure {α : Type} (a : α) : M α := fun log => (log, Except.ok a)

def M.bind {α β : Type} (m : M α) (f : α → M β) : M β := fun log =>
  match m log with
  | (log2, Except.ok a) => f a log2
  | (log2, Except.error e) => (log2, Except.error e)

instance : Monad M where
  pure := M.pure
  bind := M.bind

/-- Raise an exception. -/
def M.throw {α : Type} (e : Err) : M α := fun log => (log, Except.error e)

/-- Perform a side effect. -/
def M.emit (a : Action) : M Unit := fun log => (log ++ [a], Except.ok ())

/-- Lift a pure fallible computation. -/
def M.ofExcept {α : Type} : Except Err α → M α
  | Except.ok a => M.pure a
  | Except.error e => M.throw e

/-- Run with an empty initial log. -/
def M.run {α : Type} (m : M α) : List Action × Except Err α := m []

/-- An event as the handler sees it: a black box apart from its id and
the id of its room (spec section 3, Event reference). -/
structure Event where
  event_id : String
  room_id : String
deriving DecidableEq, Repr

/-- The content of an m.room.power_levels event, restricted to the fields
get_moderators reads.  users is an Option so that a power-level event whose
content lacks a users mapping is representable (content is a JSON dict and
the source indexes it without a guard). -/
structure PowerLevelsContent where
  ban : Option Int
  kick : Option Int
  users : Option (List (String × Int))
deriving DecidableEq, Repr

/-- The collaborators of AbuseReportHandler, as the handler observes them:
hostname is hs.hostname; events is the datastore event lookup; visible_to
is the visibility filter judgement for one user and one event in peeking
mode; power_levels is state.get_current_state for the power-levels event of
a room; server_notices_enabled is server_notices.is_enabled();
has_federation_sender says whether self.federation_sender is set (it is
None when the server does not send federation); time_msec is the clock. -/
structure Env where
  hostname : String
  events : String → Option Event
  visible_to : String → Event → Bool
  power_levels : String → Option PowerLevelsContent
  server_notices_enabled : Bool
  has_federation_sender : Bool
  time_msec : Nat

/-- A parsed Matrix user id, sigil @ (synapse.types.UserID, a
DomainSpecificString with fields localpart and domain). -/
structure UserID where
  localpart : String
  domain : String
deriving DecidableEq, Repr

/-- A parsed Matrix room id, sigil ! (synapse.types.RoomID). -/
structure RoomID where
  localpart : String
  domain : String
deriving DecidableEq, Repr

def UserID.to_string (u : UserID) : String := "@" ++ u.localpart ++ ":" ++ u.domain

def RoomID.to_string (r : RoomID) : String := "!" ++ r.localpart ++ ":" ++ r.domain

/-- Split a character list at the first colon, as Python
s.split(":", 1) does when it finds a colon: the part before the first
colon and everything after it; none when there is no colon. -/
def split_first_colon : List Char → Option (List Char × List Char)
  | [] => none
  | c :: rest =>
      if c = ':' then some ([], rest)
      else
        match split_first_colon rest with
        | none => none
        | some (l, r) => some (c :: l, r)

/-- DomainSpecificString.from_string (synapse.types, outside src): requires
the sigil as first character, then splits the remainder at the first colon
into localpart and domain; anything else raises a SynapseError. -/
def parse_domain_specific (sigil : Char) (s : String) :
    Except Err (String × String) :=
  match s.toList with
  | [] => Except.error (Err.synapse 400 "Invalid ID" Codes.INVALID_PARAM)
  | c :: rest =>
      if c = sigil then
        match split_first_colon rest with
        | none => Except.error (Err.synapse 400 "Invalid ID" Codes.INVALID_PARAM)
        | some (localpart, domain) =>
            Except.ok (String.mk localpart, String.mk domain)
      else Except.error (Err.synapse 400 "Invalid ID" Codes.INVALID_PARAM)

def UserID.from_string (s : String) : Except Err UserID :=
  (parse_domain_specific '@' s).map (fun p => UserID.mk p.1 p.2)

def RoomID.from_string (s : String) : Except Err RoomID :=
  (parse_domain_specific '!' s).map (fun p => RoomID.mk p.1 p.2)

/-- get_domain_from_id (synapse.types, outside src; spec section 4.5 calls
it domain_of): everything after the first colon; raises when there is no
colon. -/
def get_domain_from_id (s : String) : Except Err String :=
  match split_first_colon s.toList with
  | none => Except.error (Err.synapse 400 "Invalid ID" Codes.UNKNOWN)
  | some (_, domain) => Except.ok (String.mk domain)

/-- The value the source passes to get_moderators as room_id.  The local
dispatch path passes a RoomID object; the federation path passes the value
popped straight out of the EDU JSON dict, which is a plain JSON value, not
a RoomID object. -/
inductive PyRoomId where
  | roomID (r : RoomID)
  | jsonVal (v : JsonValue)
deriving DecidableEq, Repr

/-- Python attribute dispatch for room_id.to_string(): a RoomID object has
the method; a plain JSON value (string, number, null) does not, so the call
raises AttributeError. -/
def PyRoomId.to_string_method : PyRoomId → Except Err String
  | PyRoomId.roomID r => Except.ok (RoomID.to_string r)
  | PyRoomId.jsonVal _ => Except.error (Err.attributeError "to_string")

/-- Modelled from the spec: VisibilityFilter.filterForUser(userId, [event],
peeking = true) returns the subset of the given events visible to userId
(spec section 6); the filter itself lives outside src. -/
def filter_events_for_client (env : Env) (user_id : String)
    (events : List Event) : List Event :=
  events.filter (fun e => env.visible_to user_id e)

/-- Modelled from the spec: Store.lookupEvent(eventId) returns the event or
NotFound (spec section 6); with allow_none absent, the datastore raises a
not-found SynapseError for a missing event.  Used by the local dispatch
path as store.get_event(event_id, check_room_id = None). -/
def store_get_event_strict (env : Env) (event_id : String) : M Event :=
  match env.events event_id with
  | some e => M.pure e
  | none =>
      M.throw (Err.synapse 404 ("Could not find event " ++ event_id)
        Codes.NOT_FOUND)

/-- Modelled from the spec: the store lookup in the federation path allows
not found rather than erroring (spec section 4.5, check 2).  A non-string
key finds no event. -/
def store_lookup (env : Env) (event_id : JsonValue) : Option Event :=
  match event_id with
  | JsonValue.str s => env.events s
  | _ => none

/-- store.get_event(event_id, allow_none = True) as called by the
federation path. -/
def store_get_event_allow_none (env : Env) (event_id : JsonValue) :
    M (Option Event) :=
  M.pure (store_lookup env event_id)

/-- Modelled from the spec: assert_params_in_dict (synapse.http.servlet,
outside src) checks the required keys are present, else fails with an
invalid-argument error (spec section 4.1: fails if required fields reason,
score are absent). -/
def assert_params_in_dict (body : JsonDict) (required : List String) :
    M Unit :=
  if required.all (fun k => (alist_get body k).isSome) then M.pure ()
  else M.throw (Err.synapse 400 "Missing params" Codes.MISSING_PARAM)

/-- One iteration of the for-loop of get_moderators (source lines
255-257): when the level reaches moderator_level, parse the member id and
append it to the accumulated list. -/
def moderators_step (moderator_level : Int) (moderators : List UserID)
    (p : String × Int) : M (List UserID) :=
  if p.2 ≥ moderator_level then do
    let uid ← M.ofExcept (UserID.from_string p.1)
    M.pure (moderators ++ [uid])
  else M.pure moderators

/-- The for-loop of get_moderators over the users mapping, starting from
the empty list. -/
def moderators_loop (moderator_level : Int) (users : List (String × Int)) :
    M (List UserID) :=
  users.foldlM (moderators_step moderator_level) []

/-- get_moderators (source lines 237-259): fetch the power-levels state
event; absent means the distinguished no-moderators error; compute
moderator_level = max(ban, kick) with 50 as the default for each; then
collect every user of the (unguarded) users mapping whose level reaches
moderator_level, parsing each key as a UserID. -/
def get_moderators (env : Env) (room_id : PyRoomId) : M (List UserID) := do
  let room_id_str ← M.ofExcept room_id.to_string_method
  match env.power_levels room_id_str with
  | none =>
      M.throw (Err.synapse 404 "This room does not seem to have moderators"
        Codes.NOT_FOUND)
  | some content =>
      let ban_level := content.ban.getD 50
      let kick_level := content.kick.getD 50
      let moderator_level := max ban_level kick_level
      match content.users with
      | none => M.throw (Err.keyError "users")
      | some users => moderators_loop moderator_level users

def jsonOfOptInt : Option Int → JsonValue
  | some n => JsonValue.int n
  | none => JsonValue.null

def jsonOfOptStr : Option String → JsonValue
  | some s => JsonValue.str s
  | none => JsonValue.null

/-- The notification payload the local dispatch path builds
(source lines 193-202). -/
def local_event_content (room_id event_id user_id : String)
    (score : Option Int) (reason : String) (nature : Option String) :
    JsonDict :=
  [("body", JsonValue.str "User has reported content"),
   ("msgtype", JsonValue.str ServerNoticeContentReport),
   ("room_id", JsonValue.str room_id),
   ("event_id", JsonValue.str event_id),
   ("user_id", JsonValue.str user_id),
   ("score", jsonOfOptInt score),
   ("reason", JsonValue.str reason),
   ("nature", jsonOfOptStr nature)]

/-- Appending a moderator to the bucket of domain hs, as the Python dict
mutation does: the bucket list is extended in place if the key exists,
otherwise a new key is inserted at the end (insertion order preserved). -/
def dict_append (m : List (String × List UserID)) (hs : String)
    (moderator : UserID) : List (String × List UserID) :=
  if (alist_get m hs).isSome then
    m.map (fun p => if p.1 = hs then (p.1, p.2 ++ [moderator]) else p)
  else m ++ [(hs, [moderator])]

/-- Body of the dispatch loop (source lines 215-235): for one destination
group, deliver a server notice per moderator when the destination is this
server and notices are enabled, else one EDU to the destination when the
federation sender exists. -/
def dispatch_group (env : Env) (hs : String) (moderators : List UserID)
    (event_content : JsonDict) : M Unit :=
  if env.hostname = hs then
    if env.server_notices_enabled then
      moderators.forM (fun moderator_id =>
        M.emit (Action.send_notice (UserID.to_string moderator_id)
          EventTypes.Message event_content))
    else M.pure ()
  else if env.has_federation_sender then
    M.emit (Action.send_edu hs EduTypes.ContentReport event_content)
  else M.pure ()

/-- The result of a report call: the admin path returns the pair
(200, empty dict); the moderator path falls off the end of the function and
so returns Python None, modelled as none. -/
abbrev RespResult := Option (Nat × JsonDict)

/-- _report_to_homeserver_admin (source lines 108-140): persist the report
through the store and return 200 with an empty body. -/
def report_to_homeserver_admin (env : Env) (room_id : RoomID)
    (event_id : String) (user_id : UserID) (reason : String)
    (content : JsonDict) : M RespResult := do
  M.emit (Action.add_event_report (RoomID.to_string room_id) event_id
    (UserID.to_string user_id) reason content env.time_msec)
  M.pure (some (200, []))

/-- _report_to_room_moderators (source lines 142-235), statement by
statement: event lookup (raises when missing), room-id check, visibility
check, moderator resolution (result unused; the source calls
get_moderators again in the grouping loop at line 206), payload
construction, grouping, dispatch.  The grouping loop reads
user_id.domain — the domain of the reporter, not of the moderator — which
is the source text at line 207.  No return statement: the function returns
Python None. -/
def report_to_room_moderators (env : Env) (room_id : RoomID)
    (event_id : String) (user_id : UserID) (reason : String)
    (score : Option Int) (nature : Option String) : M RespResult := do
  let event ← store_get_event_strict env event_id
  if event.room_id ≠ RoomID.to_string room_id then
    M.throw (Err.synapse 404 "Cannot find event" Codes.NOT_FOUND)
  else M.pure ()
  let events := filter_events_for_client env (UserID.to_string user_id) [event]
  if events.length = 0 then
    M.throw (Err.synapse 404 "Cannot find event" Codes.NOT_FOUND)
  else M.pure ()
  let _moderators ← get_moderators env (PyRoomId.roomID room_id)
  let event_content := local_event_content (RoomID.to_string room_id)
    event_id (UserID.to_string user_id) score reason nature
  let mods2 ← get_moderators env (PyRoomId.roomID room_id)
  let moderators_by_hs := mods2.foldl
    (fun m moderator => dict_append m user_id.domain moderator) []
  moderators_by_hs.forM (fun p => dispatch_group env p.1 p.2 event_content)
  M.pure none

/-- report (source lines 50-106): parse the room id, check required body
params, read the target field with its default, and route. -/
def report (env : Env) (user_id : UserID) (body : JsonDict)
    (room_id : String) (event_id : String) (reason : String)
    (score : Option Int) (nature : Option String) : M RespResult := do
  let typed_room_id ← M.ofExcept (RoomID.from_string room_id)
  assert_params_in_dict body ["reason", "score"]
  let target := (alist_get body "org.matrix.msc2938.target").getD
    (JsonValue.str "homeserver-admins")
  if target = JsonValue.str "room-moderators" then
    report_to_room_moderators env typed_room_id event_id user_id reason
      score nature
  else if target = JsonValue.str "homeserver-admins" then
    report_to_homeserver_admin env typed_room_id event_id user_id reason body
  else
    M.throw (Err.synapse 400
      "Optional param target must be one of homeserver-admins, room-moderators"
      Codes.BAD_JSON)

/-- dict.pop(key) on a JSON dict: the value when present (with the key
removed from the dict), else a KeyError. -/
def edu_pop (d : JsonDict) (k : String) : M (JsonValue × JsonDict) :=
  match alist_get d k with
  | some v => M.pure (v, dict_remove d k)
  | none => M.throw (Err.keyError k)

/-- get_domain_from_id applied to a value popped from JSON: a string is
split as usual; any non-string raises AttributeError (the function calls a
string method on its argument). -/
def get_domain_from_id_py (v : JsonValue) : M String :=
  match v with
  | JsonValue.str s => M.ofExcept (get_domain_from_id s)
  | _ => M.throw (Err.attributeError "find")

/-- The notification payload the federation ingestion path rebuilds
(source lines 303-311). -/
def federation_event_content (room_id event_id reporter_id score reason :
    JsonValue) : JsonDict :=
  [("body", JsonValue.str "User has reported content"),
   ("msgtype", JsonValue.str ServerNoticeContentReport),
   ("room_id", room_id),
   ("event_id", event_id),
   ("reporter_id", reporter_id),
   ("score", score),
   ("reason", reason)]

/-- Source lines 283-321 from the result of the store lookup on: the
no-such-event check, the room check, payload rebuild, moderator
resolution — handed the popped room_id value, a plain JSON value, where
get_moderators expects a RoomID object — and the notice loop over the
moderators of this server (hs.is_mine compares the domain of the id with
the hostname; modelled from the spec, section 4.5). -/
def on_receive_with_event (env : Env)
    (room_id event_id reporter_id score reason : JsonValue) :
    Option Event → M Unit
  | none =>
      M.emit (Action.log_warning "Received invalid event report edu: no such event")
  | some event =>
      if JsonValue.str event.room_id ≠ room_id then
        M.emit (Action.log_warning "Received invalid event report edu: bad room")
      else do
        let event_content := federation_event_content room_id event_id
          reporter_id score reason
        let all_moderators ← get_moderators env (PyRoomId.jsonVal room_id)
        all_moderators.forM (fun moderator_id =>
          if env.hostname = moderator_id.domain then
            M.emit (Action.send_notice (UserID.to_string moderator_id)
              EventTypes.Message event_content)
          else M.pure ())

/-- Body of on_receive_report_through_federation after the five pops
(source lines 270-321): the reporter-domain check, then the store lookup
and the rest of the validation and delivery. -/
def on_receive_validated (env : Env) (origin : String)
    (room_id event_id reporter_id score reason : JsonValue) : M Unit := do
  let reporter_domain ← get_domain_from_id_py reporter_id
  if reporter_domain ≠ origin then
    M.emit (Action.log_warning "Received invalid event report edu: bad user domain")
  else do
    let eventOpt ← store_get_event_allow_none env event_id
    on_receive_with_event env room_id event_id reporter_id score reason
      eventOpt

/-- on_receive_report_through_federation (source lines 261-321): pop the
five fields in source order (a KeyError propagates when one is absent),
then run the validated body. -/
def on_receive_report_through_federation (env : Env) (origin : String)
    (edu_content : JsonDict) : M Unit := do
  let p1 ← edu_pop edu_content "room_id"
  let p2 ← edu_pop p1.2 "event_id"
  let p3 ← edu_pop p2.2 "reporter_id"
  let p4 ← edu_pop p3.2 "score"
  let p5 ← edu_pop p4.2 "reason"
  on_receive_validated env origin p1.1 p2.1 p3.1 p4.1 p5.1

/-- An action that notifies someone: a local server notice or an outbound
federation EDU (storage writes and log lines are not notifications). -/
def Action.is_notification : Action → Bool
  | Action.send_notice _ _ _ => true
  | Action.send_edu _ _ _ => true
  | _ => false

/-- An outbound federation send. -/
def Action.is_send_edu : Action → Bool
  | Action.send_edu _ _ _ => true
  | _ => false

/-- A log line. -/
def Action.is_log_warning : Action → Bool
  | Action.log_warning _ => true
  | _ => false

/-! Concrete inputs used to evaluate the model.  The server is
local.example; event ev1 lives in room !room:local.example; the room has
one remote moderator (@mod:remote.example, level 100), one local moderator
(@boss:local.example, level 100) and one low-powered member. -/

def roomMain : RoomID := { localpart := "room", domain := "local.example" }

def reporterMain : UserID := { localpart := "alice", domain := "local.example" }

def plMain : PowerLevelsContent :=
  { ban := some 50
    kick := some 50
    users := some [("@mod:remote.example", 100), ("@boss:local.example", 100),
                   ("@low:local.example", 0)] }

def envMain : Env :=
  { hostname := "local.example"
    events := fun s =>
      if s = "ev1" then some { event_id := "ev1", room_id := "!room:local.example" }
      else none
    visible_to := fun _ _ => true
    power_levels := fun s => if s = "!room:local.example" then some plMain else none
    server_notices_enabled := true
    has_federation_sender := true
    time_msec := 0 }

/-- envMain with the server-notice subsystem disabled. -/
def envNoticesOff : Env :=
  { envMain with server_notices_enabled := false }

/-- envMain with no power-level event for any room. -/
def envNoPL : Env :=
  { envMain with power_levels := fun _ => none }

/-- A power-level content with no users mapping. -/
def plNoUsers : PowerLevelsContent :=
  { ban := some 50, kick := some 50, users := none }

/-- envMain where the power-level event content has no users mapping. -/
def envNoUsers : Env :=
  { envMain with power_levels := fun s =>
      if s = "!room:local.example" then some plNoUsers else none }

/-- envMain with an empty event store. -/
def envNoEvents : Env :=
  { envMain with events := fun _ => none }

/-- envMain where the reporter cannot see any event. -/
def envInvisible : Env :=
  { envMain with visible_to := fun _ _ => false }

/-- The power-level content of the worked example of the claims:
ban 50, kick 50, users A 100, B 50, C 0. -/
def plABC : PowerLevelsContent :=
  { ban := some 50
    kick := some 50
    users := some [("@a:hs1", 100), ("@b:hs2", 50), ("@c:hs3", 0)] }

def envABC : Env :=
  { envMain with power_levels := fun s =>
      if s = "!room:local.example" then some plABC else none }

/-- A well-formed inbound federation EDU from remote.example about ev1,
passing all three validation checks. -/
def eduValid : JsonDict :=
  [("room_id", JsonValue.str "!room:local.example"),
   ("event_id", JsonValue.str "ev1"),
   ("reporter_id", JsonValue.str "@bob:remote.example"),
   ("score", JsonValue.int 0),
   ("reason", JsonValue.str "spam")]

/-- An inbound federation EDU lacking the required score field. -/
def eduMissingScore : JsonDict :=
  [("room_id", JsonValue.str "!room:local.example"),
   ("event_id", JsonValue.str "ev1"),
   ("reporter_id", JsonValue.str "@bob:remote.example"),
   ("reason", JsonValue.str "spam")]

/-- An inbound federation EDU whose reporter id does not belong to the
sending origin remote.example. -/
def eduWrongDomain : JsonDict :=
  [("room_id", JsonValue.str "!room:local.example"),
   ("event_id", JsonValue.str "ev1"),
   ("reporter_id", JsonValue.str "@bob:elsewhere.example"),
   ("score", JsonValue.int 0),
   ("reason", JsonValue.str "spam")]

/-- A report body selecting the room-moderators target. -/
def bodyModerators : JsonDict :=
  [("reason", JsonValue.str "spam"), ("score", JsonValue.int 0),
   ("org.matrix.msc2938.target", JsonValue.str "room-moderators")]

/-- The same body with an extra caller-supplied free-form field. -/
def bodyModeratorsExtra : JsonDict :=
  [("reason", JsonValue.str "spam"), ("score", JsonValue.int 0),
   ("org.matrix.msc2938.target", JsonValue.str "room-moderators"),
   ("evil_field", JsonValue.str "injected")]

/-- A report body with the default (admin) target. -/
def bodyAdmin : JsonDict :=
  [("reason", JsonValue.str "spam"), ("score", JsonValue.int 0)]

/-- The five pops of the federation entry point, as a function of the five
lookups on the original EDU dict: used to characterize
on_receive_report_through_federation. -/
def pop_dispatch (env : Env) (origin : String) :
    Option JsonValue → Option JsonValue → Option JsonValue →
    Option JsonValue → Option JsonValue → M Unit
  | some v1, some v2, some v3, some v4, some v5 =>
      on_receive_validated env origin v1 v2 v3 v4 v5
  | none, _, _, _, _ => M.throw (Err.keyError "room_id")
  | some _, none, _, _, _ => M.throw (Err.keyError "event_id")
  | some _, some _, none, _, _ => M.throw (Err.keyError "reporter_id")
  | some _, some _, some _, none, _ => M.throw (Err.keyError "score")
  | some _, some _, some _, some _, none => M.throw (Err.keyError "reason")

/-- Parse every key of a users-mapping fragment as a UserID, stopping at
the first failure: the characterization the moderator loop is proved
against. -/
def parse_all : List (String × Int) → Except Err (List UserID)
  | [] => Except.ok []
  | p :: t =>
      match UserID.from_string p.1 with
      | Except.error e => Except.error e
      | Except.ok u =>
          match parse_all t with
          | Except.error e => Except.error e
          | Except.ok tl => Except.ok (u :: tl)

/-! Basic facts about the effect monad. -/

@[simp]
theorem bind_eq {α β : Type} (m : M α) (f : α → M β) :
    (m >>= f) = M.bind m f := rfl

@[simp]
theorem pure_eq {α : Type} (a : α) : (Pure.pure a : M α) = M.pure a := rfl

@[simp]
theorem M.bind_pure {α β : Type} (a : α) (f : α → M β) :
    M.bind (M.pure a) f = f a := rfl

@[simp]
theorem M.bind_throw {α β : Type} (e : Err) (f : α → M β) :
    M.bind (M.throw e) f = M.throw e := rfl

@[simp]
theorem M.run_pure {α : Type} (a : α) : M.run (M.pure a) = ([], Except.ok a) := rfl

@[simp]
theorem M.run_throw {α : Type} (e : Err) :
    M.run (M.throw e : M α) = ([], Except.error e) := rfl

/-- C1 evaluation at the failing input: the room has a single remote
moderator and a local one, the reporter is local, notices and federation
are both enabled.  The dispatcher sends a local server notice to the
remote moderator @mod:remote.example and sends no federation EDU at all,
because the grouping loop keys every moderator by the domain of the
reporter (source line 207) instead of the domain of the moderator. -/
theorem C1_dispatch_groups_by_reporter_domain :
    M.run (report_to_room_moderators envMain roomMain "ev1" reporterMain
      "spam" (some (-100)) none)
    = ([Action.send_notice "@mod:remote.example" EventTypes.Message
          (local_event_content "!room:local.example" "ev1"
            "@alice:local.example" (some (-100)) "spam" none),
        Action.send_notice "@boss:local.example" EventTypes.Message
          (local_event_content "!room:local.example" "ev1"
            "@alice:local.example" (some (-100)) "spam" none)],
       Except.ok none) := by
  rfl

/-- C4 counterexample: an inbound federation report lacking the required
score field makes the handler raise a KeyError to its caller (dict.pop on
a missing key), with nothing logged — the claim that every malformed
inbound message is dropped after logging and never raises is false. -/
theorem C4_counterexample_missing_field_raises :
    M.run (on_receive_report_through_federation envMain "remote.example"
      eduMissingScore)
    = ([], Except.error (Err.keyError "score")) := by
  rfl

/-- C8 evaluation: a successful room-moderators submission returns Python
None (the function has no return statement), while the admin path returns
the pair of 200 and an empty body, and an unrecognized target fails with
BAD_JSON. -/
theorem C8_moderator_path_returns_no_body :
    (M.run (report envMain reporterMain bodyModerators "!room:local.example"
      "ev1" "spam" (some 0) none)).2 = Except.ok none
    ∧ M.run (report envMain reporterMain bodyAdmin "!room:local.example"
        "ev1" "spam" (some 0) none)
      = ([Action.add_event_report "!room:local.example" "ev1"
            "@alice:local.example" "spam" bodyAdmin 0],
         Except.ok (some (200, [])))
    ∧ (M.run (report envMain reporterMain
        [("reason", JsonValue.str "spam"), ("score", JsonValue.int 0),
         ("org.matrix.msc2938.target", JsonValue.str "nonsense")]
        "!room:local.example" "ev1" "spam" (some 0) none)).2
      = Except.error (Err.synapse 400
          "Optional param target must be one of homeserver-admins, room-moderators"
          Codes.BAD_JSON) := by
  exact ⟨rfl, rfl, rfl⟩

/-- C9 evaluation: an inbound federation report that passes all three
validation checks never reaches local notice delivery — get_moderators is
handed the plain string popped from the EDU, whose to_string attribute
access raises AttributeError, so the run ends in an error with an empty
action log.  By contrast the local dispatch path consults the server-notice
subsystem: with notices disabled it completes with no delivery at all. -/
theorem C9_federated_local_delivery_never_reached :
    M.run (on_receive_report_through_federation envMain "remote.example"
      eduValid)
    = ([], Except.error (Err.attributeError "to_string"))
    ∧ M.run (report_to_room_moderators envNoticesOff roomMain "ev1"
        reporterMain "spam" (some 0) none)
      = ([], Except.ok none) := by
  exact ⟨rfl, rfl⟩

/-- Resolving moderators with a plain JSON value in place of a RoomID
object raises AttributeError at once (source line 239 calls to_string on
its argument). -/
theorem get_moderators_jsonVal (env : Env) (v : JsonValue) :
    get_moderators env (PyRoomId.jsonVal v)
    = M.throw (Err.attributeError "to_string") := rfl

/-- Removing the pairs with key a from a JSON dict does not change the
lookup of a different key b. -/
theorem alist_get_remove_ne (l : JsonDict) (a b : String) (h : b ≠ a) :
    alist_get (dict_remove l a) b = alist_get l b := by
  induction l with
  | nil => rfl
  | cons p t ih =>
    by_cases hpa : p.1 = a
    · have hpb : ¬ p.1 = b := fun hc => h (hc ▸ hpa)
      rw [dict_remove, if_pos hpa, alist_get, if_neg hpb, ih]
    · by_cases hpb : p.1 = b
      · rw [dict_remove, if_neg hpa, alist_get, if_pos hpb, alist_get, if_pos hpb]
      · rw [dict_remove, if_neg hpa, alist_get, if_neg hpb, alist_get, if_neg hpb, ih]

@[simp]
theorem M.ofExcept_ok {α : Type} (a : α) :
    M.ofExcept (Except.ok a) = M.pure a := rfl

@[simp]
theorem M.ofExcept_error {α : Type} (e : Err) :
    (M.ofExcept (Except.error e) : M α) = M.throw e := rfl

/-- The moderator for-loop, started from any accumulator, emits nothing
and returns the accumulator followed by the parses of exactly the
members whose level reaches the threshold. -/
theorem moderators_loop_go (lvl : Int) (l : List (String × Int))
    (acc : List UserID) :
    List.foldlM (moderators_step lvl) acc l
      = fun log => (log,
          match parse_all (l.filter (fun p => p.2 ≥ lvl)) with
          | Except.error e => Except.error e
          | Except.ok tl => Except.ok (acc ++ tl)) := by
  induction l generalizing acc with
  | nil =>
    funext log
    simp [parse_all, M.pure]
  | cons p t ih =>
    funext log
    by_cases hp : p.2 ≥ lvl
    · have hd : (decide (p.2 ≥ lvl)) = true := decide_eq_true hp
      rw [List.foldlM_cons]
      simp only [bind_eq]
      cases hfs : UserID.from_string p.1 with
      | error e =>
          have hstep : moderators_step lvl acc p = M.throw e := by
            simp [moderators_step, if_pos hp, hfs]
          rw [hstep, M.bind_throw]
          simp [List.filter_cons, hd, parse_all, hfs, M.throw]
      | ok u =>
          have hstep : moderators_step lvl acc p = M.pure (acc ++ [u]) := by
            simp [moderators_step, if_pos hp, hfs]
          rw [hstep, M.bind_pure, ih]
          cases hpa : parse_all (t.filter (fun q => q.2 ≥ lvl)) with
          | error e => simp [List.filter_cons, hd, parse_all, hfs, hpa]
          | ok tl => simp [List.filter_cons, hd, parse_all, hfs, hpa]
    · have hd : (decide (p.2 ≥ lvl)) = false := decide_eq_false hp
      have hstep : moderators_step lvl acc p = M.pure acc := by
        simp [moderators_step, hp]
      rw [List.foldlM_cons]
      simp only [bind_eq]
      rw [hstep, M.bind_pure, ih]
      simp [List.filter_cons, hd]

/-- C2: with a power-level event present and carrying a users mapping,
moderator resolution returns exactly the users of that mapping whose
level reaches max(ban default 50, kick default 50), in mapping order; in
particular for ban 50, kick 50, users A 100, B 50, C 0 it returns exactly
A and B. -/
theorem C2_moderators_are_users_at_or_above_threshold :
    (∀ (env : Env) (r : RoomID) (content : PowerLevelsContent)
       (users : List (String × Int)),
      env.power_levels (RoomID.to_string r) = some content →
      content.users = some users →
      M.run (get_moderators env (PyRoomId.roomID r))
        = ([], parse_all (users.filter
            (fun p => p.2 ≥ max (content.ban.getD 50) (content.kick.getD 50)))))
    ∧ M.run (get_moderators envABC (PyRoomId.roomID roomMain))
        = ([], Except.ok [UserID.mk "a" "hs1", UserID.mk "b" "hs2"]) := by
  constructor
  · intro env r content users hpl hu
    unfold get_moderators
    simp only [PyRoomId.to_string_method, M.ofExcept_ok, bind_eq, M.bind_pure]
    rw [hpl]
    simp only [hu]
    unfold moderators_loop
    rw [moderators_loop_go]
    unfold M.run
    cases hpa : parse_all (users.filter
        (fun p => p.2 ≥ max (content.ban.getD 50) (content.kick.getD 50))) with
    | error e => simp [hpa]
    | ok tl => simp [hpa]
  · rfl

/-- C2 witness: the general statement applied to the concrete ABC room. -/
theorem C2_witness_abc_room :
    M.run (get_moderators envABC (PyRoomId.roomID roomMain))
      = ([], Except.ok [UserID.mk "a" "hs1", UserID.mk "b" "hs2"]) := by
  have h := C2_moderators_are_users_at_or_above_threshold.1 envABC roomMain
    plABC [("@a:hs1", 100), ("@b:hs2", 50), ("@c:hs3", 0)] rfl rfl
  rw [h]
  rfl

/-- Without a power-level event, get_moderators raises the distinguished
no-moderators error. -/
theorem get_moderators_no_pl (env : Env) (r : RoomID)
    (hpl : env.power_levels (RoomID.to_string r) = none) :
    get_moderators env (PyRoomId.roomID r)
      = M.throw (Err.synapse 404 "This room does not seem to have moderators"
          Codes.NOT_FOUND) := by
  unfold get_moderators
  simp only [PyRoomId.to_string_method, M.ofExcept_ok, bind_eq, M.bind_pure]
  rw [hpl]

/-- With a power-level event whose content has no users mapping,
get_moderators raises a KeyError. -/
theorem get_moderators_no_users (env : Env) (r : RoomID)
    (content : PowerLevelsContent)
    (hpl : env.power_levels (RoomID.to_string r) = some content)
    (hu : content.users = none) :
    get_moderators env (PyRoomId.roomID r) = M.throw (Err.keyError "users") := by
  unfold get_moderators
  simp only [PyRoomId.to_string_method, M.ofExcept_ok, bind_eq, M.bind_pure]
  rw [hpl]
  simp only [hu]

/-- C3: a room-moderators report whose event is missing from the store,
or recorded in a different room than claimed, or invisible to the
reporter under peeking visibility filtering, fails with a 404 NOT_FOUND
SynapseError and emits no action at all — no local notice, no federation
EDU. -/
theorem C3_invalid_event_fails_with_not_found_and_no_notification :
    ∀ (env : Env) (r : RoomID) (event_id : String) (u : UserID)
      (reason : String) (score : Option Int) (nature : Option String),
      (env.events event_id = none
        ∨ ∃ ev, env.events event_id = some ev ∧
            (ev.room_id ≠ RoomID.to_string r
              ∨ env.visible_to (UserID.to_string u) ev = false)) →
      ∃ msg, M.run (report_to_room_moderators env r event_id u reason score
          nature)
        = ([], Except.error (Err.synapse 404 msg Codes.NOT_FOUND)) := by
  intro env r event_id u reason score nature h
  unfold report_to_room_moderators
  rcases h with hnone | ⟨ev, hev, hbad⟩
  · refine ⟨"Could not find event " ++ event_id, ?_⟩
    have hst : store_get_event_strict env event_id
        = M.throw (Err.synapse 404 ("Could not find event " ++ event_id)
            Codes.NOT_FOUND) := by
      simp [store_get_event_strict, hnone]
    simp only [bind_eq]
    rw [hst, M.bind_throw]
    rfl
  · have hst : store_get_event_strict env event_id = M.pure ev := by
      simp [store_get_event_strict, hev]
    simp only [bind_eq]
    rw [hst, M.bind_pure]
    by_cases hroom : ev.room_id ≠ RoomID.to_string r
    · refine ⟨"Cannot find event", ?_⟩
      rw [if_pos hroom, M.bind_throw]
      rfl
    · rcases hbad with hb | hvis
      · exact absurd hb hroom
      · refine ⟨"Cannot find event", ?_⟩
        rw [if_neg hroom, M.bind_pure]
        simp only [filter_events_for_client, List.filter, hvis,
          List.length_nil, if_pos, M.bind_throw]
        rfl

/-- C6: for a room with no power-level event, moderator resolution fails
with the distinguished no-moderators 404 error rather than returning an
empty set, and the whole moderator-dispatch path ends in an error with an
empty action log — no notification is ever attempted. -/
theorem C6_no_power_level_event_fails_before_any_notification :
    (∀ (env : Env) (r : RoomID),
      env.power_levels (RoomID.to_string r) = none →
      M.run (get_moderators env (PyRoomId.roomID r))
        = ([], Except.error (Err.synapse 404
            "This room does not seem to have moderators" Codes.NOT_FOUND)))
    ∧ (∀ (env : Env) (r : RoomID) (event_id : String) (u : UserID)
         (reason : String) (score : Option Int) (nature : Option String),
      env.power_levels (RoomID.to_string r) = none →
      ∃ e, M.run (report_to_room_moderators env r event_id u reason score
          nature)
        = ([], Except.error e)) := by
  constructor
  · intro env r hpl
    rw [get_moderators_no_pl env r hpl]
    rfl
  · intro env r event_id u reason score nature hpl
    unfold report_to_room_moderators
    cases hev : env.events event_id with
    | none =>
        refine ⟨Err.synapse 404 ("Could not find event " ++ event_id)
          Codes.NOT_FOUND, ?_⟩
        have hst : store_get_event_strict env event_id
            = M.throw (Err.synapse 404 ("Could not find event " ++ event_id)
                Codes.NOT_FOUND) := by
          simp [store_get_event_strict, hev]
        simp only [bind_eq]
        rw [hst, M.bind_throw]
        rfl
    | some ev =>
        have hst : store_get_event_strict env event_id = M.pure ev := by
          simp [store_get_event_strict, hev]
        simp only [bind_eq]
        rw [hst, M.bind_pure]
        by_cases hroom : ev.room_id ≠ RoomID.to_string r
        · refine ⟨Err.synapse 404 "Cannot find event" Codes.NOT_FOUND, ?_⟩
          rw [if_pos hroom, M.bind_throw]
          rfl
        · rw [if_neg hroom, M.bind_pure]
          cases hvis : env.visible_to (UserID.to_string u) ev with
          | false =>
              refine ⟨Err.synapse 404 "Cannot find event" Codes.NOT_FOUND, ?_⟩
              simp only [filter_events_for_client, List.filter, hvis,
                List.length_nil, if_pos, M.bind_throw]
              rfl
          | true =>
              refine ⟨Err.synapse 404
                "This room does not seem to have moderators" Codes.NOT_FOUND, ?_⟩
              simp only [filter_events_for_client, List.filter, hvis]
              rw [if_neg (by simp), M.bind_pure,
                get_moderators_no_pl env r hpl, M.bind_throw]
              rfl

/-- C3 witness: a report about an event absent from the store. -/
theorem C3_witness_missing_event :
    ∃ msg, M.run (report_to_room_moderators envNoEvents roomMain "ev1"
        reporterMain "spam" (some 0) none)
      = ([], Except.error (Err.synapse 404 msg Codes.NOT_FOUND)) :=
  C3_invalid_event_fails_with_not_found_and_no_notification envNoEvents
    roomMain "ev1" reporterMain "spam" (some 0) none (Or.inl rfl)

/-- C6 witness: the room with no power-level event. -/
theorem C6_witness_no_power_levels :
    M.run (get_moderators envNoPL (PyRoomId.roomID roomMain))
      = ([], Except.error (Err.synapse 404
          "This room does not seem to have moderators" Codes.NOT_FOUND))
    ∧ ∃ e, M.run (report_to_room_moderators envNoPL roomMain "ev1"
        reporterMain "spam" (some 0) none)
      = ([], Except.error e) :=
  ⟨C6_no_power_level_event_fails_before_any_notification.1 envNoPL roomMain rfl,
   C6_no_power_level_event_fails_before_any_notification.2 envNoPL roomMain
     "ev1" reporterMain "spam" (some 0) none rfl⟩

/-- C10: when the power-level event exists but its content has no users
mapping, moderator resolution fails with a KeyError — an unhandled lookup
error, which is not a SynapseError of any status or code, in particular
not the no-moderators NOT_FOUND error. -/
theorem C10_missing_users_mapping_raises_key_error :
    (∀ (env : Env) (r : RoomID) (content : PowerLevelsContent),
      env.power_levels (RoomID.to_string r) = some content →
      content.users = none →
      M.run (get_moderators env (PyRoomId.roomID r))
        = ([], Except.error (Err.keyError "users")))
    ∧ (∀ (status : Nat) (msg : String) (c : Codes),
        Err.keyError "users" ≠ Err.synapse status msg c) := by
  constructor
  · intro env r content hpl hu
    rw [get_moderators_no_users env r content hpl hu]
    rfl
  · intro status msg c h
    exact Err.noConfusion h

/-- C10 witness: the room whose power-level content lacks users. -/
theorem C10_witness_no_users_mapping :
    M.run (get_moderators envNoUsers (PyRoomId.roomID roomMain))
      = ([], Except.error (Err.keyError "users")) :=
  C10_missing_users_mapping_raises_key_error.1 envNoUsers roomMain plNoUsers
    rfl rfl

/-- The federation entry point, characterized by the five lookups on the
original EDU dict: the first missing field (in pop order) raises its
KeyError; with all five present the validated body runs on the popped
values. -/
theorem on_receive_eq (env : Env) (origin : String) (edu : JsonDict) :
    on_receive_report_through_federation env origin edu
      = pop_dispatch env origin (alist_get edu "room_id")
          (alist_get edu "event_id") (alist_get edu "reporter_id")
          (alist_get edu "score") (alist_get edu "reason") := by
  have g2 : alist_get (dict_remove edu "room_id") "event_id"
      = alist_get edu "event_id" :=
    alist_get_remove_ne _ _ _ (by decide)
  have g3 : alist_get (dict_remove (dict_remove edu "room_id") "event_id")
      "reporter_id" = alist_get edu "reporter_id" := by
    rw [alist_get_remove_ne _ _ _ (by decide),
      alist_get_remove_ne _ _ _ (by decide)]
  have g4 : alist_get (dict_remove (dict_remove (dict_remove edu "room_id")
      "event_id") "reporter_id") "score" = alist_get edu "score" := by
    rw [alist_get_remove_ne _ _ _ (by decide),
      alist_get_remove_ne _ _ _ (by decide),
      alist_get_remove_ne _ _ _ (by decide)]
  have g5 : alist_get (dict_remove (dict_remove (dict_remove (dict_remove edu
      "room_id") "event_id") "reporter_id") "score") "reason"
      = alist_get edu "reason" := by
    rw [alist_get_remove_ne _ _ _ (by decide),
      alist_get_remove_ne _ _ _ (by decide),
      alist_get_remove_ne _ _ _ (by decide),
      alist_get_remove_ne _ _ _ (by decide)]
  unfold on_receive_report_through_federation
  simp only [bind_eq, edu_pop]
  cases hl1 : alist_get edu "room_id" with
  | none => simp [M.bind_throw, pop_dispatch]
  | some v1 =>
      simp only [M.bind_pure]
      rw [g2]
      cases hl2 : alist_get edu "event_id" with
      | none => simp [M.bind_throw, pop_dispatch]
      | some v2 =>
          simp only [M.bind_pure]
          rw [g3]
          cases hl3 : alist_get edu "reporter_id" with
          | none => simp [M.bind_throw, pop_dispatch]
          | some v3 =>
              simp only [M.bind_pure]
              rw [g4]
              cases hl4 : alist_get edu "score" with
              | none => simp [M.bind_throw, pop_dispatch]
              | some v4 =>
                  simp only [M.bind_pure]
                  rw [g5]
                  cases hl5 : alist_get edu "reason" with
                  | none => simp [M.bind_throw, pop_dispatch]
                  | some v5 => simp [M.bind_pure, pop_dispatch]

/-- When one of the three validation checks fails — reporter domain not
the origin, event unresolvable, or room mismatch — and the reporter id is
a string whose domain parses, the validated body reduces to a single
warning log. -/
theorem on_receive_validated_drops (env : Env) (origin : String)
    (rid eid rep sc rs : JsonValue) (s dom : String)
    (hrep : rep = JsonValue.str s)
    (hdom : get_domain_from_id s = Except.ok dom)
    (hfail : dom ≠ origin ∨ store_lookup env eid = none ∨
      ∃ ev, store_lookup env eid = some ev ∧ JsonValue.str ev.room_id ≠ rid) :
    ∃ m, on_receive_validated env origin rid eid rep sc rs
      = M.emit (Action.log_warning m) := by
  subst hrep
  unfold on_receive_validated
  have hpy : get_domain_from_id_py (JsonValue.str s) = M.pure dom := by
    simp [get_domain_from_id_py, hdom]
  simp only [bind_eq]
  rw [hpy, M.bind_pure]
  by_cases hd : dom ≠ origin
  · exact ⟨_, by rw [if_pos hd]⟩
  · rw [if_neg hd]
    rw [show store_get_event_allow_none env eid
        = M.pure (store_lookup env eid) from rfl, M.bind_pure]
    rcases hfail with hcon | hnone | ⟨ev, hev, hroom⟩
    · exact absurd hcon hd
    · rw [hnone]
      exact ⟨_, rfl⟩
    · exact ⟨"Received invalid event report edu: bad room", by
        simp only [hev, on_receive_with_event]
        rw [if_pos hroom]⟩

/-- Every action the validated federation body can log is a warning: the
guarded notice loop is never reached, because moderator resolution raises
on the plain JSON room id before it can run. -/
theorem on_receive_validated_log (env : Env) (origin : String)
    (v1 v2 v3 v4 v5 : JsonValue) :
    ∀ a ∈ (M.run (on_receive_validated env origin v1 v2 v3 v4 v5)).1,
      ∃ m, a = Action.log_warning m := by
  unfold on_receive_validated
  cases v3 with
  | int n =>
      intro a ha
      simp [get_domain_from_id_py, M.run, M.bind, M.throw] at ha
  | null =>
      intro a ha
      simp [get_domain_from_id_py, M.run, M.bind, M.throw] at ha
  | str s =>
      cases hga : get_domain_from_id s with
      | error e =>
          intro a ha
          simp [get_domain_from_id_py, hga, M.run, M.bind, M.throw,
            M.ofExcept_error] at ha
      | ok dom =>
          have hpy : get_domain_from_id_py (JsonValue.str s) = M.pure dom := by
            simp [get_domain_from_id_py, hga]
          simp only [bind_eq]
          rw [hpy, M.bind_pure]
          by_cases hd : dom ≠ origin
          · rw [if_pos hd]
            intro a ha
            simp [M.run, M.emit] at ha
            exact ⟨_, ha⟩
          · rw [if_neg hd]
            rw [show store_get_event_allow_none env v2
                = M.pure (store_lookup env v2) from rfl, M.bind_pure]
            cases hsl : store_lookup env v2 with
            | none =>
                intro a ha
                simp [on_receive_with_event, M.run, M.emit] at ha
                exact ⟨_, ha⟩
            | some ev =>
                simp only [on_receive_with_event]
                by_cases hroom : JsonValue.str ev.room_id ≠ v1
                · rw [if_pos hroom]
                  intro a ha
                  simp [M.run, M.emit] at ha
                  exact ⟨_, ha⟩
                · rw [if_neg hroom]
                  simp only [bind_eq]
                  rw [get_moderators_jsonVal, M.bind_throw]
                  intro a ha
                  simp [M.run, M.throw] at ha

/-- C4 amended: an inbound federation message carrying all five
required fields with a string reporter id whose domain parses, and
failing one of the three validation checks — reporter domain differing
from the origin, unresolvable event, or room mismatch — is dropped after
logging exactly one warning, with no notification sent and no error
raised to the transport. -/
theorem C4_amended_validation_failures_drop_after_logging :
    ∀ (env : Env) (origin : String) (edu : JsonDict)
      (rid eid sc rs : JsonValue) (s dom : String),
      alist_get edu "room_id" = some rid →
      alist_get edu "event_id" = some eid →
      alist_get edu "reporter_id" = some (JsonValue.str s) →
      alist_get edu "score" = some sc →
      alist_get edu "reason" = some rs →
      get_domain_from_id s = Except.ok dom →
      (dom ≠ origin ∨ store_lookup env eid = none ∨
        ∃ ev, store_lookup env eid = some ev ∧ JsonValue.str ev.room_id ≠ rid) →
      ∃ m, M.run (on_receive_report_through_federation env origin edu)
        = ([Action.log_warning m], Except.ok ()) := by
  intro env origin edu rid eid sc rs s dom h1 h2 h3 h4 h5 hdom hfail
  obtain ⟨m, hm⟩ := on_receive_validated_drops env origin rid eid
    (JsonValue.str s) sc rs s dom rfl hdom hfail
  refine ⟨m, ?_⟩
  rw [on_receive_eq]
  simp only [h1, h2, h3, h4, h5, pop_dispatch]
  rw [hm]
  rfl

/-- C4 amended witness: an EDU whose reporter id belongs to
elsewhere.example while the origin is remote.example. -/
theorem C4_witness_wrong_domain_dropped :
    ∃ m, M.run (on_receive_report_through_federation envMain
        "remote.example" eduWrongDomain)
      = ([Action.log_warning m], Except.ok ()) :=
  C4_amended_validation_failures_drop_after_logging envMain "remote.example"
    eduWrongDomain (JsonValue.str "!room:local.example")
    (JsonValue.str "ev1") (JsonValue.int 0) (JsonValue.str "spam")
    "@bob:elsewhere.example" "elsewhere.example" rfl rfl rfl rfl rfl rfl
    (Or.inl (by decide))

/-- C7: the federation ingestion entry point never emits an outbound
federation EDU, and any server notice it emits goes to a user of this
server — so an inbound report is never reflected back out to the
federation. -/
theorem C7_federation_ingestion_only_notifies_local :
    ∀ (env : Env) (origin : String) (edu : JsonDict),
      ∀ a ∈ (M.run (on_receive_report_through_federation env origin edu)).1,
        Action.is_send_edu a = false
        ∧ ∀ uid t c, a = Action.send_notice uid t c →
            ∃ m : UserID, uid = UserID.to_string m ∧ m.domain = env.hostname := by
  intro env origin edu
  have hshape : ∀ a ∈ (M.run (on_receive_report_through_federation env
      origin edu)).1, ∃ m, a = Action.log_warning m := by
    rw [on_receive_eq]
    cases hl1 : alist_get edu "room_id" with
    | none => intro a ha; simp [pop_dispatch, M.run, M.throw] at ha
    | some v1 =>
        cases hl2 : alist_get edu "event_id" with
        | none => intro a ha; simp [pop_dispatch, M.run, M.throw] at ha
        | some v2 =>
            cases hl3 : alist_get edu "reporter_id" with
            | none => intro a ha; simp [pop_dispatch, M.run, M.throw] at ha
            | some v3 =>
                cases hl4 : alist_get edu "score" with
                | none => intro a ha; simp [pop_dispatch, M.run, M.throw] at ha
                | some v4 =>
                    cases hl5 : alist_get edu "reason" with
                    | none =>
                        intro a ha
                        simp [pop_dispatch, M.run, M.throw] at ha
                    | some v5 =>
                        simp only [pop_dispatch]
                        exact on_receive_validated_log env origin v1 v2 v3 v4 v5
  intro a ha
  obtain ⟨m, rfl⟩ := hshape a ha
  refine ⟨rfl, ?_⟩
  intro uid t c h
  exact Action.noConfusion h

/-- C7 witness: the wrong-domain EDU produces a warning log entry, which
is neither an outbound EDU nor a notice. -/
theorem C7_witness_wrong_domain_edu :
    Action.is_send_edu
        (Action.log_warning "Received invalid event report edu: bad user domain")
      = false
    ∧ ∀ uid t c,
        Action.log_warning "Received invalid event report edu: bad user domain"
          = Action.send_notice uid t c →
        ∃ m : UserID, uid = UserID.to_string m ∧ m.domain = envMain.hostname := by
  have hmem : Action.log_warning "Received invalid event report edu: bad user domain"
      ∈ (M.run (on_receive_report_through_federation envMain "remote.example"
        eduWrongDomain)).1 := by
    rw [show (M.run (on_receive_report_through_federation envMain
        "remote.example" eduWrongDomain)).1
      = [Action.log_warning "Received invalid event report edu: bad user domain"]
      from rfl]
    exact List.mem_singleton.mpr rfl
  exact C7_federation_ingestion_only_notifies_local envMain "remote.example"
    eduWrongDomain
    (Action.log_warning "Received invalid event report edu: bad user domain")
    hmem

/-- C5: delivered notification payloads are built only from validated and
derived fields.  On the local path, two request bodies that agree on the
recognized fields (presence of reason and score, value of the target
field) produce identical notification deliveries, whatever free-form
fields they carry besides; the admin storage record is not a notification.
On the federated path, two inbound EDU contents that agree on the five
recognized fields produce identical runs. -/
theorem C5_payload_built_only_from_validated_fields :
    (∀ (env : Env) (u : UserID) (b1 b2 : JsonDict) (rid eid reason : String)
       (score : Option Int) (nature : Option String),
      (alist_get b1 "reason").isSome = (alist_get b2 "reason").isSome →
      (alist_get b1 "score").isSome = (alist_get b2 "score").isSome →
      alist_get b1 "org.matrix.msc2938.target"
        = alist_get b2 "org.matrix.msc2938.target" →
      (M.run (report env u b1 rid eid reason score nature)).1.filter
          Action.is_notification
        = (M.run (report env u b2 rid eid reason score nature)).1.filter
          Action.is_notification)
    ∧ (∀ (env : Env) (origin : String) (e1 e2 : JsonDict),
      alist_get e1 "room_id" = alist_get e2 "room_id" →
      alist_get e1 "event_id" = alist_get e2 "event_id" →
      alist_get e1 "reporter_id" = alist_get e2 "reporter_id" →
      alist_get e1 "score" = alist_get e2 "score" →
      alist_get e1 "reason" = alist_get e2 "reason" →
      M.run (on_receive_report_through_federation env origin e1)
        = M.run (on_receive_report_through_federation env origin e2)) := by
  constructor
  · intro env u b1 b2 rid eid reason score nature h1 h2 h3
    unfold report
    cases hr : RoomID.from_string rid with
    | error e =>
        simp only [bind_eq, M.ofExcept_error, M.bind_throw]
    | ok tr =>
        simp only [bind_eq, M.ofExcept_ok, M.bind_pure]
        have hall : (["reason", "score"].all (fun k => (alist_get b1 k).isSome))
            = (["reason", "score"].all (fun k => (alist_get b2 k).isSome)) := by
          simp only [List.all_cons, List.all_nil, h1, h2]
        cases hab : ["reason", "score"].all (fun k => (alist_get b2 k).isSome) with
        | false =>
            have ea1 : assert_params_in_dict b1 ["reason", "score"]
                = M.throw (Err.synapse 400 "Missing params" Codes.MISSING_PARAM) := by
              simp [assert_params_in_dict, hall, hab]
            have ea2 : assert_params_in_dict b2 ["reason", "score"]
                = M.throw (Err.synapse 400 "Missing params" Codes.MISSING_PARAM) := by
              simp [assert_params_in_dict, hab]
            rw [ea1, ea2, M.bind_throw, M.bind_throw]
        | true =>
            have ea1 : assert_params_in_dict b1 ["reason", "score"]
                = M.pure () := by
              simp [assert_params_in_dict, hall, hab]
            have ea2 : assert_params_in_dict b2 ["reason", "score"]
                = M.pure () := by
              simp [assert_params_in_dict, hab]
            rw [ea1, ea2, M.bind_pure, M.bind_pure, h3]
            by_cases ht : (alist_get b2 "org.matrix.msc2938.target").getD
                (JsonValue.str "homeserver-admins")
                = JsonValue.str "room-moderators"
            · rw [if_pos ht, if_pos ht]
            · rw [if_neg ht, if_neg ht]
              by_cases ht2 : (alist_get b2 "org.matrix.msc2938.target").getD
                  (JsonValue.str "homeserver-admins")
                  = JsonValue.str "homeserver-admins"
              · rw [if_pos ht2, if_pos ht2]
                rw [show M.run (report_to_homeserver_admin env tr eid u reason b1)
                    = ([Action.add_event_report (RoomID.to_string tr) eid
                        (UserID.to_string u) reason b1 env.time_msec],
                       Except.ok (some (200, []))) from rfl]
                rw [show M.run (report_to_homeserver_admin env tr eid u reason b2)
                    = ([Action.add_event_report (RoomID.to_string tr) eid
                        (UserID.to_string u) reason b2 env.time_msec],
                       Except.ok (some (200, []))) from rfl]
                rfl
              · rw [if_neg ht2, if_neg ht2]
  · intro env origin e1 e2 h1 h2 h3 h4 h5
    rw [on_receive_eq, on_receive_eq, h1, h2, h3, h4, h5]

/-- C5 witness: adding an extra free-form field to the request body or to
the inbound EDU content changes no delivered notification. -/
theorem C5_witness_extra_field_ignored :
    (M.run (report envMain reporterMain bodyModerators "!room:local.example"
        "ev1" "spam" (some 0) none)).1.filter Action.is_notification
      = (M.run (report envMain reporterMain bodyModeratorsExtra
          "!room:local.example" "ev1" "spam" (some 0) none)).1.filter
          Action.is_notification
    ∧ M.run (on_receive_report_through_federation envMain "remote.example"
        eduValid)
      = M.run (on_receive_report_through_federation envMain "remote.example"
          (eduValid ++ [("evil_field", JsonValue.str "injected")])) :=
  ⟨C5_payload_built_only_from_validated_fields.1 envMain reporterMain
      bodyModerators bodyModeratorsExtra "!room:local.example" "ev1" "spam"
      (some 0) none rfl rfl rfl,
   C5_payload_built_only_from_validated_fields.2 envMain "remote.example"
      eduValid (eduValid ++ [("evil_field", JsonValue.str "injected")])
      rfl rfl rfl rfl rfl⟩

end AbuseReports
